import Mathlib

/-!
Verification of the hybrid retrieval engine of a pet-health consultation
backend.  The relevant Python modules are shallowly embedded here:

* `utils.combine_memo_texts` — the text combiner joining the ten optional
  free-text fields of a clinical memo record;
* `routers/opensearch.index_memo_carte_data` — the batch indexer with
  per-record error isolation;
* `routers/opensearch.search_memo_carte` — the query builder for vector,
  keyword and hybrid search, including the soft-delete filter injection;
* `opensearch_utils.create_index` / `create_all_indexes` and
  `main.startup_event` — startup schema provisioning.

External collaborators (the OpenAI embedding provider and the OpenSearch
cluster) are modelled at their interface boundary: each call site receives
the collaborator's reply (or raised error) as an explicit parameter, and
document-level matching of the two opaque leaf queries (approximate
nearest-neighbour and analyzed multi-field match) is an abstract per-document
oracle, while the boolean-query combination semantics and the `term`
equality-filter semantics of OpenSearch are modelled concretely.
-/

namespace Vetty

/-! ## Python `str.strip` -/

/-- Characters removed by Python `str.strip()` (ASCII whitespace; the model
restricts Python's unicode whitespace set to the ASCII part). -/
def isPySpace (c : Char) : Bool :=
  c = ' ' || c = '\t' || c = '\n' || c = '\r' || c = '\x0b' || c = '\x0c'

/-- List-level model of Python `str.strip()`: drop whitespace from both ends. -/
def pyStripList (l : List Char) : List Char :=
  (l.dropWhile isPySpace).rdropWhile isPySpace

/-- Model of Python `str.strip()`. -/
def pyStrip (s : String) : String :=
  ⟨pyStripList s.data⟩

theorem pyStripList_idem (l : List Char) :
    pyStripList (pyStripList l) = pyStripList l := by
  unfold pyStripList
  cases hB : (l.dropWhile isPySpace).rdropWhile isPySpace with
  | nil => simp [List.rdropWhile_nil]
  | cons b bs =>
    have hpre := List.rdropWhile_prefix isPySpace (l.dropWhile isPySpace)
    rw [hB] at hpre
    obtain ⟨t, ht⟩ := hpre
    have hne : l.dropWhile isPySpace ≠ [] := by
      intro h0
      rw [h0] at ht
      simp at ht
    have hnb : isPySpace b = false := by
      have h := List.head_dropWhile_not isPySpace l hne
      have h2 : (l.dropWhile isPySpace).head? = some ((l.dropWhile isPySpace).head hne) :=
        List.head?_eq_head hne
      have h3 : (l.dropWhile isPySpace).head? = some b := by
        rw [← ht]
        rfl
      rw [h2] at h3
      injection h3 with h4
      rwa [h4] at h
    have h1 : (b :: bs).dropWhile isPySpace = b :: bs := by
      simp [List.dropWhile_cons, hnb]
    rw [h1, ← hB, List.rdropWhile_idempotent]

theorem pyStrip_idem (s : String) : pyStrip (pyStrip s) = pyStrip s :=
  congrArg String.mk (pyStripList_idem s.data)

/-! ## Data model (`models.MemoCarteModel`) -/

/-- A Python `datetime.datetime` value, identified by its ISO serialization.
Such objects are always truthy in Python. -/
structure PyDatetime where
  iso : String
deriving DecidableEq

/-- Embedding of `models.MemoCarteModel` (pydantic).  All fields except the
identifier are optional with `None` default, as in the source. -/
structure MemoCarteModel where
  id_memo_carte : Int
  number_memo_carte : Option String := none
  type_input : Option Int := none
  flg_verified : Option Int := none
  id_talk_transcribe_start : Option String := none
  flg_auto_summary : Option Int := none
  memo_transcription_ai : Option String := none
  memo_customer_ai : Option String := none
  memo_service_ai : Option String := none
  memo_illness_ai : Option String := none
  memo_plan_ai : Option String := none
  memo_prescription_ai : Option String := none
  memo_other : Option String := none
  id_vetty_ai : Option Int := none
  datetime_memo_carte : Option PyDatetime := none
  flg_delete : Option Int := none
  datetime_insert : Option PyDatetime := none
  datetime_update : Option PyDatetime := none
  id_clinic_id : Option Int := none
  id_customer_id : Option Int := none
  id_employee_id : Option Int := none
  id_employee_insert_id : Option Int := none
  id_employee_update_id : Option Int := none
  id_pet_id : Option Int := none
  memo_ass : Option String := none
  memo_obj : Option String := none
  memo_sbj : Option String := none
  id_cli_common_id : Option Int := none
  id_request_id : Option Int := none
  flg_pinned : Option Int := none
  type_source : Option String := none
deriving DecidableEq

/-! ## Text combiner (`utils.combine_memo_texts`) -/

/-- The `fields_to_combine` list of `utils.combine_memo_texts`, in source
order. -/
def fields_to_combine (memo : MemoCarteModel) : List (Option String) :=
  [memo.memo_other,
   memo.memo_transcription_ai,
   memo.memo_customer_ai,
   memo.memo_service_ai,
   memo.memo_illness_ai,
   memo.memo_plan_ai,
   memo.memo_prescription_ai,
   memo.memo_ass,
   memo.memo_obj,
   memo.memo_sbj]

/-- Truth value of the Python test `field and field.strip()` for a present
field `s`: a non-`None` string survives iff it is non-empty and non-empty
after stripping. -/
def keeps (s : String) : Bool :=
  !s.isEmpty && !(pyStrip s).isEmpty

/-- One iteration of the combiner loop:
`if field and field.strip(): text_parts.append(field.strip())`. -/
def combine_step (acc : List String) (field : Option String) : List String :=
  match field with
  | none => acc
  | some s => if keeps s then acc ++ [pyStrip s] else acc

/-- Embedding of `utils.combine_memo_texts`: the appending loop over
`fields_to_combine` followed by `" ".join(text_parts)`.  A `None` field is
falsy, an empty string is falsy, and a whitespace-only string strips to the
falsy empty string. -/
def combine_memo_texts (memo : MemoCarteModel) : String :=
  String.intercalate " " ((fields_to_combine memo).foldl combine_step [])

/-- Specification-level view of one step of the combiner loop: keep the
stripped value of a field exactly when the field is present, non-empty and
non-empty after stripping. -/
def strip_filter (o : Option String) : Option String :=
  match o with
  | none => none
  | some s => if keeps s then some (pyStrip s) else none

/-- The surviving stripped field values, in fixed field order. -/
def strippedParts (memo : MemoCarteModel) : List String :=
  (fields_to_combine memo).filterMap strip_filter

theorem text_parts_foldl (l : List (Option String)) (acc : List String) :
    l.foldl combine_step acc = acc ++ l.filterMap strip_filter := by
  induction l generalizing acc with
  | nil => simp
  | cons a t ih =>
    rw [List.foldl_cons, List.filterMap_cons]
    cases a with
    | none => simpa [combine_step, strip_filter] using ih acc
    | some s =>
      by_cases h : keeps s = true
      · rw [show combine_step acc (some s) = acc ++ [pyStrip s] by simp [combine_step, h],
            show strip_filter (some s) = some (pyStrip s) by simp [strip_filter, h], ih]
        simp
      · rw [show combine_step acc (some s) = acc by simp [combine_step, h],
            show strip_filter (some s) = none by simp [strip_filter, h], ih]

/-- C6: `combine_memo_texts` produces exactly the fixed-order space-join of
the free-text fields that are non-empty after trimming: the output is the
single-space join (in fixed field order) of the trimmed surviving values of
the ten fields; every surviving part is trim-stable and non-empty, so no
surrounding whitespace of any field reaches the output; all-empty or
all-`None` input yields the empty string.  The Lean function is by
construction pure and total. -/
theorem combine_memo_texts_spec (m : MemoCarteModel) :
    combine_memo_texts m = String.intercalate " " (strippedParts m)
    ∧ (fields_to_combine m).length = 10
    ∧ (∀ s ∈ strippedParts m, pyStrip s = s ∧ s ≠ "")
    ∧ ((∀ f ∈ fields_to_combine m, ∀ s, f = some s → pyStrip s = "") →
        combine_memo_texts m = "") := by
  have h1 : combine_memo_texts m = String.intercalate " " (strippedParts m) := by
    unfold combine_memo_texts strippedParts
    rw [text_parts_foldl]
    rfl
  refine ⟨h1, rfl, ?_, ?_⟩
  · intro s hs
    rw [strippedParts, List.mem_filterMap] at hs
    obtain ⟨o, _, hso⟩ := hs
    cases o with
    | none => simp [strip_filter] at hso
    | some s0 =>
      by_cases h : keeps s0 = true
      · simp [strip_filter, h] at hso
        subst hso
        refine ⟨pyStrip_idem s0, ?_⟩
        intro hcon
        rw [keeps, hcon] at h
        have hfalse : (!s0.isEmpty && !("" : String).isEmpty) = false := by
          rw [show ("" : String).isEmpty = true from rfl]
          simp
        rw [hfalse] at h
        exact Bool.false_ne_true h
      · simp [strip_filter, h] at hso
  · intro h
    have hsp : strippedParts m = [] := by
      rw [strippedParts, List.filterMap_eq_nil_iff]
      intro o ho
      cases o with
      | none => rfl
      | some s =>
        have hse := h (some s) ho s rfl
        simp [strip_filter, keeps, hse]
        exact fun _ => rfl
    rw [h1, hsp]
    rfl

/-- Example record for evaluating the combiner claims. -/
def exMemo : MemoCarteModel :=
  { id_memo_carte := 7, memo_other := some "  dog  ", memo_sbj := some " cough" }

/-- Record with every optional field left at `None`. -/
def emptyMemo : MemoCarteModel :=
  { id_memo_carte := 0 }

/-- Witness for C6: the combiner theorem evaluated at concrete records. -/
theorem combine_memo_texts_spec_witness :
    (pyStrip "dog" = "dog" ∧ "dog" ≠ "") ∧ combine_memo_texts emptyMemo = "" :=
  ⟨(combine_memo_texts_spec exMemo).2.2.1 "dog" (by decide),
   (combine_memo_texts_spec emptyMemo).2.2.2 (by simp [fields_to_combine, emptyMemo])⟩

/-! ## Query model (`routers/opensearch.search_memo_carte`)

Every query this program builds is either a single leaf query or one
boolean query whose clause lists contain only leaves, so the embedding uses
that flat shape.  Boost values are embedded as rationals (`^2` as `2`,
`^1.5` as `3/2`, `1.2` as `6/5`, `0.8` as `4/5`). -/

/-- Leaf queries occurring in `search_memo_carte`'s request bodies. -/
inductive LeafQuery
  | knn (field : String) (vector : List ℚ) (k : ℕ) (boost : Option ℚ)
  | multiMatch (query : String) (fields : List (String × Option ℚ))
      (matchType : String) (analyzer : String) (boost : Option ℚ)
  | term (field : String) (value : Int)
deriving DecidableEq

/-- A built engine query: the dict under the `query` key — either a simple
leaf dict, or a `bool` dict with `must` / `should` / `filter` clause lists
and an optional `minimum_should_match`. -/
inductive Query
  | leaf (q : LeafQuery)
  | boolQ (must should filter : List LeafQuery) (minimum_should_match : Option ℕ)
deriving DecidableEq

/-- The full search request body: `size`, `query` and `_source.excludes`. -/
structure SearchBody where
  size : ℕ
  query : Query
  source_excludes : List String
deriving DecidableEq

/-- The `fields` list of the `multi_match` sub-query, shared verbatim by the
keyword and hybrid branches of `search_memo_carte`: `combined_memo_text^2`,
`memo_other^1.5`, the remaining free-text fields unboosted. -/
def multi_match_fields : List (String × Option ℚ) :=
  [("combined_memo_text", some 2),
   ("memo_other", some (3/2)),
   ("memo_transcription_ai", none),
   ("memo_customer_ai", none),
   ("memo_service_ai", none),
   ("memo_illness_ai", none),
   ("memo_plan_ai", none),
   ("memo_prescription_ai", none),
   ("memo_ass", none),
   ("memo_obj", none),
   ("memo_sbj", none)]

/-- The injected soft-delete filter clause `{"term": {"flg_delete": 0}}`. -/
def flg_delete_filter : LeafQuery := .term "flg_delete" 0

/-- The filter-injection step of `search_memo_carte`: when the built query
dict has no `bool` key (a simple leaf) it is wrapped into a new `bool` with
`must` holding the original query and `filter` holding the soft-delete term;
when it already is a `bool`, the term is appended to its `filter` list
(created empty when absent — in the flat model the list is always
materialised). -/
def add_delete_filter : Query → Query
  | .leaf base => .boolQ [base] [] [flg_delete_filter] none
  | .boolQ m s f msm => .boolQ m s (f ++ [flg_delete_filter]) msm

/-- Base query of the `vector` branch: `knn` over `memo_vector` with
`k = size`. -/
def vector_query (query_vector : List ℚ) (size : ℕ) : Query :=
  .leaf (.knn "memo_vector" query_vector size none)

/-- Base query of the `keyword` branch: analyzed `multi_match`, type
`best_fields`. -/
def keyword_query (q : String) : Query :=
  .leaf (.multiMatch q multi_match_fields "best_fields" "japanese_analyzer" none)

/-- Base query of the hybrid (default) branch: `bool` with two `should`
clauses — the `knn` sub-query boosted `1.2` and the `multi_match` sub-query
boosted `0.8` — and `minimum_should_match = 1`. -/
def hybrid_query (q : String) (query_vector : List ℚ) (size : ℕ) : Query :=
  .boolQ []
    [.knn "memo_vector" query_vector size (some (6/5)),
     .multiMatch q multi_match_fields "best_fields" "japanese_analyzer" (some (4/5))]
    [] (some 1)

/-- Embedding of the request-body construction of `search_memo_carte`: the
branch on `request.search_type` (any value other than `vector` and `keyword`
falls into the hybrid default branch), followed by the soft-delete filter
injection.  All three branches set the same `size` and
`_source.excludes = ["memo_vector"]`. -/
def search_memo_carte_body (search_type q : String) (size : ℕ)
    (query_vector : List ℚ) : SearchBody :=
  let base_query : Query :=
    if search_type = "vector" then vector_query query_vector size
    else if search_type = "keyword" then keyword_query q
    else hybrid_query q query_vector size
  { size := size
    query := add_delete_filter base_query
    source_excludes := ["memo_vector"] }

/-- What `search_memo_carte` does before building the body, per
`search_type`: the `vector` and default (hybrid) branches await
`get_embedding` first; the `keyword` branch goes straight to the store.  The
route has no validation branch: `SearchRequest.search_type` is an
unvalidated optional string. -/
inductive SearchDispatch
  | validationError (detail : String)
  | callsEmbedding
  | keywordSearch
deriving DecidableEq

/-- Whether a dispatch outcome reaches an external collaborator (the
embedding provider or the backing store). -/
def SearchDispatch.makesExternalCall : SearchDispatch → Bool
  | .validationError _ => false
  | _ => true

/-- Branch selection of `search_memo_carte` on `request.search_type`. -/
def search_memo_carte_dispatch (search_type : String) : SearchDispatch :=
  if search_type = "vector" then .callsEmbedding
  else if search_type = "keyword" then .keywordSearch
  else .callsEmbedding

/-- The pydantic default of `SearchRequest.search_type`. -/
def search_type_default : String := "hybrid"

/-! ### Engine matching semantics

A document as the engine sees it for matching purposes: its soft-delete
flag value (`none` when the field is absent or null) and two abstract
oracles for the opaque leaf queries — whether the ANN engine returns the
document for the query vector, and whether the analyzed multi-field match
accepts it.  The `term` query follows OpenSearch exact-equality semantics:
a document matches `{"term": {"flg_delete": v}}` iff the field is present
with value `v`; an absent field never matches. -/
structure EngineDoc where
  flg_delete : Option Int
  knn_match : Bool
  text_match : Bool
deriving DecidableEq

/-- Leaf-query matching against a document. -/
def LeafQuery.docMatches (d : EngineDoc) : LeafQuery → Bool
  | .knn _ _ _ _ => d.knn_match
  | .multiMatch _ _ _ _ _ => d.text_match
  | .term f v => f == "flg_delete" && d.flg_delete == some v

/-- OpenSearch `bool`-query matching: all `must` and all `filter` clauses
must match; with an explicit `minimum_should_match = k`, at least `k`
`should` clauses must match; without one, `should` clauses are required
(at least one) only when there is no `must`/`filter` context. -/
def Query.docMatches (d : EngineDoc) : Query → Bool
  | .leaf l => l.docMatches d
  | .boolQ must should filter msm =>
    must.all (LeafQuery.docMatches d) && filter.all (LeafQuery.docMatches d) &&
      match msm with
      | some k => decide (k ≤ (should.filter (LeafQuery.docMatches d)).length)
      | none =>
        !(must.isEmpty && filter.isEmpty && !should.isEmpty)
          || !(should.filter (LeafQuery.docMatches d)).isEmpty

theorem search_memo_carte_body_eq (search_type q : String) (size : ℕ)
    (query_vector : List ℚ) :
    search_memo_carte_body search_type q size query_vector =
      if search_type = "vector" then
        ⟨size, .boolQ [.knn "memo_vector" query_vector size none] []
            [flg_delete_filter] none, ["memo_vector"]⟩
      else if search_type = "keyword" then
        ⟨size, .boolQ [.multiMatch q multi_match_fields "best_fields"
              "japanese_analyzer" none] [] [flg_delete_filter] none,
          ["memo_vector"]⟩
      else
        ⟨size, .boolQ []
            [.knn "memo_vector" query_vector size (some (6/5)),
             .multiMatch q multi_match_fields "best_fields" "japanese_analyzer"
               (some (4/5))]
            [flg_delete_filter] (some 1), ["memo_vector"]⟩ := by
  unfold search_memo_carte_body vector_query keyword_query hybrid_query add_delete_filter
  split_ifs <;> rfl

theorem docMatches_false_of_filter_flagged (m s f : List LeafQuery)
    (msm : Option ℕ) (hf : flg_delete_filter ∈ f) (d : EngineDoc)
    (hd : d.flg_delete ≠ some 0) :
    Query.docMatches d (.boolQ m s f msm) = false := by
  have hleaf : LeafQuery.docMatches d flg_delete_filter = false := by
    rw [flg_delete_filter, LeafQuery.docMatches]
    simp [hd]
  have hall : f.all (LeafQuery.docMatches d) = false := by
    rcases hall : f.all (LeafQuery.docMatches d) with _ | _
    · rfl
    · exact absurd ((List.all_eq_true.mp hall) flg_delete_filter hf)
        (by rw [hleaf]; exact Bool.false_ne_true)
  rw [show Query.docMatches d (.boolQ m s f msm)
        = (m.all (LeafQuery.docMatches d) && f.all (LeafQuery.docMatches d) &&
            match msm with
            | some k => decide (k ≤ (s.filter (LeafQuery.docMatches d)).length)
            | none =>
              !(m.isEmpty && f.isEmpty && !s.isEmpty)
                || !(s.filter (LeafQuery.docMatches d)).isEmpty) from rfl,
      hall]
  simp

/-- The text-typed fields of `opensearch_utils.T_MEMO_CARTE_MAPPING` with
their declared analyzer: every free-text field and `combined_memo_text` are
indexed with `japanese_analyzer`. -/
def T_MEMO_CARTE_MAPPING_text_fields : List (String × String) :=
  [("memo_other", "japanese_analyzer"),
   ("memo_transcription_ai", "japanese_analyzer"),
   ("memo_customer_ai", "japanese_analyzer"),
   ("memo_service_ai", "japanese_analyzer"),
   ("memo_illness_ai", "japanese_analyzer"),
   ("memo_plan_ai", "japanese_analyzer"),
   ("memo_prescription_ai", "japanese_analyzer"),
   ("memo_ass", "japanese_analyzer"),
   ("memo_obj", "japanese_analyzer"),
   ("memo_sbj", "japanese_analyzer"),
   ("combined_memo_text", "japanese_analyzer")]

theorem body_query_filtered (search_type q : String) (size : ℕ) (qv : List ℚ) :
    ∃ m s fl msm,
      (search_memo_carte_body search_type q size qv).query = .boolQ m s fl msm
      ∧ flg_delete_filter ∈ fl := by
  rw [search_memo_carte_body_eq]
  split_ifs
  · exact ⟨_, _, _, _, rfl, by simp⟩
  · exact ⟨_, _, _, _, rfl, by simp⟩
  · exact ⟨_, _, _, _, rfl, by simp⟩

theorem body_docMatches_false (search_type q : String) (size : ℕ) (qv : List ℚ)
    (d : EngineDoc) (hd : d.flg_delete ≠ some 0) :
    Query.docMatches d (search_memo_carte_body search_type q size qv).query = false := by
  obtain ⟨m, s, fl, msm, hq, hmem⟩ := body_query_filtered search_type q size qv
  rw [hq]
  exact docMatches_false_of_filter_flagged m s fl msm hmem d hd

/-- C1: in every mode the built query carries the soft-delete filter
`{"term": {"flg_delete": 0}}` as a non-scoring `filter` clause — by wrapping
the simple-match base query of the vector and keyword modes into a new
`bool` with `must` + `filter`, and by appending to the existing `bool`'s
filter set in hybrid mode — so a document whose soft-delete flag is nonzero
matches no built query. -/
theorem soft_delete_filter_injected_all_modes (search_type q : String)
    (size : ℕ) (qv : List ℚ) :
    (∃ m s fl msm,
      (search_memo_carte_body search_type q size qv).query = .boolQ m s fl msm
      ∧ flg_delete_filter ∈ fl)
    ∧ (search_type = "vector" →
        (search_memo_carte_body search_type q size qv).query
          = .boolQ [.knn "memo_vector" qv size none] [] [flg_delete_filter] none)
    ∧ (search_type = "keyword" →
        (search_memo_carte_body search_type q size qv).query
          = .boolQ [.multiMatch q multi_match_fields "best_fields"
                "japanese_analyzer" none] [] [flg_delete_filter] none)
    ∧ (search_type ≠ "vector" → search_type ≠ "keyword" →
        (search_memo_carte_body search_type q size qv).query
          = .boolQ []
              [.knn "memo_vector" qv size (some (6/5)),
               .multiMatch q multi_match_fields "best_fields" "japanese_analyzer"
                 (some (4/5))]
              [flg_delete_filter] (some 1))
    ∧ (∀ (d : EngineDoc) (n : Int), d.flg_delete = some n → n ≠ 0 →
        Query.docMatches d (search_memo_carte_body search_type q size qv).query
          = false) := by
  refine ⟨body_query_filtered search_type q size qv, ?_, ?_, ?_, ?_⟩
  · intro h1
    rw [search_memo_carte_body_eq, if_pos h1]
  · intro h2
    have hnv : search_type ≠ "vector" := by rw [h2]; decide
    rw [search_memo_carte_body_eq, if_neg hnv, if_pos h2]
  · intro h1 h2
    rw [search_memo_carte_body_eq, if_neg h1, if_neg h2]
  · intro d n hdn hn
    refine body_docMatches_false search_type q size qv d ?_
    rw [hdn]
    simp [hn]

/-- Witness for C1: a flagged document (`flg_delete = 1`) does not match the
vector-mode query. -/
theorem soft_delete_filter_injected_all_modes_witness :
    Query.docMatches ⟨some 1, true, true⟩
      (search_memo_carte_body "vector" "q" 10 []).query = false :=
  (soft_delete_filter_injected_all_modes "vector" "q" 10 []).2.2.2.2
    ⟨some 1, true, true⟩ 1 rfl (by decide)

/-- C10: a document whose `flg_delete` field is absent (or null) is also
excluded from every mode's results, because the injected `term` filter
demands the value be exactly `0` and an absent field never satisfies an
equality term filter. -/
theorem absent_flag_excluded_from_results (search_type q : String) (size : ℕ)
    (qv : List ℚ) (d : EngineDoc) (h : d.flg_delete = none) :
    Query.docMatches d (search_memo_carte_body search_type q size qv).query
      = false :=
  body_docMatches_false search_type q size qv d (by rw [h]; simp)

/-- Witness for C10: a document with no soft-delete flag does not match the
keyword-mode query. -/
theorem absent_flag_excluded_from_results_witness :
    Query.docMatches ⟨none, true, true⟩
      (search_memo_carte_body "keyword" "q" 10 []).query = false :=
  absent_flag_excluded_from_results "keyword" "q" 10 [] ⟨none, true, true⟩ rfl

/-- C7: for every request whose mode is neither `vector` nor `keyword`
(which includes the default `hybrid`), the built query is a boolean
disjunction with `minimum_should_match = 1` of exactly the `knn` sub-query
(boost `1.2 = 6/5`) and the keyword `multi_match` sub-query (boost
`0.8 = 4/5`); a visible document matching either sub-query alone matches the
hybrid query. -/
theorem hybrid_mode_disjunction (search_type q : String) (size : ℕ)
    (qv : List ℚ) (h1 : search_type ≠ "vector") (h2 : search_type ≠ "keyword") :
    (search_memo_carte_body search_type q size qv).query
      = .boolQ []
          [.knn "memo_vector" qv size (some (6/5)),
           .multiMatch q multi_match_fields "best_fields" "japanese_analyzer"
             (some (4/5))]
          [flg_delete_filter] (some 1)
    ∧ (∀ d : EngineDoc, d.flg_delete = some 0 →
        d.knn_match = true ∨ d.text_match = true →
        Query.docMatches d (search_memo_carte_body search_type q size qv).query
          = true)
    ∧ search_type_default ≠ "vector" ∧ search_type_default ≠ "keyword" := by
  have hq : (search_memo_carte_body search_type q size qv).query
      = .boolQ []
          [.knn "memo_vector" qv size (some (6/5)),
           .multiMatch q multi_match_fields "best_fields" "japanese_analyzer"
             (some (4/5))]
          [flg_delete_filter] (some 1) := by
    rw [search_memo_carte_body_eq, if_neg h1, if_neg h2]
  refine ⟨hq, ?_, by decide, by decide⟩
  intro d hd hor
  rw [hq]
  obtain ⟨fd, kb, tb⟩ := d
  have hfd : fd = some 0 := hd
  subst hfd
  rcases hor with hk | ht
  · have hkb : kb = true := hk
    subst hkb
    cases tb <;> rfl
  · have htb : tb = true := ht
    subst htb
    cases kb <;> rfl

/-- Witness for C7: at the default mode, a visible document matching only
the keyword sub-query matches the hybrid query. -/
theorem hybrid_mode_disjunction_witness :
    Query.docMatches ⟨some 0, false, true⟩
      (search_memo_carte_body "hybrid" "q" 5 []).query = true :=
  (hybrid_mode_disjunction "hybrid" "q" 5 [] (by decide) (by decide)).2.1
    ⟨some 0, false, true⟩ rfl (Or.inr rfl)

/-- C8: the keyword-mode query is a `multi_match` (wrapped with the
soft-delete filter) over the ten free-text fields plus `combined_memo_text`,
typed `best_fields` with the same `japanese_analyzer` declared for those
fields by the index mapping; `combined_memo_text` carries the highest boost
(`2`), `memo_other` the next (`1.5 = 3/2`), and all other fields are
unweighted. -/
theorem keyword_mode_query (q : String) (size : ℕ) (qv : List ℚ) :
    (search_memo_carte_body "keyword" q size qv).query
      = .boolQ [.multiMatch q multi_match_fields "best_fields"
            "japanese_analyzer" none] [] [flg_delete_filter] none
    ∧ multi_match_fields.length = 11
    ∧ multi_match_fields.map Prod.fst
        = ["combined_memo_text", "memo_other", "memo_transcription_ai",
           "memo_customer_ai", "memo_service_ai", "memo_illness_ai",
           "memo_plan_ai", "memo_prescription_ai", "memo_ass", "memo_obj",
           "memo_sbj"]
    ∧ (∀ p ∈ multi_match_fields,
        (p.1, "japanese_analyzer") ∈ T_MEMO_CARTE_MAPPING_text_fields)
    ∧ multi_match_fields.head? = some ("combined_memo_text", some 2)
    ∧ multi_match_fields[1]? = some ("memo_other", some (3/2))
    ∧ (∀ p ∈ multi_match_fields.drop 2, p.2 = none)
    ∧ ((2 : ℚ) > 3/2 ∧ (3/2 : ℚ) > 1) := by
  refine ⟨?_, by decide, by decide, by decide, by rfl, by rfl, by decide,
    by constructor <;> norm_num⟩
  rw [search_memo_carte_body_eq,
    if_neg (by decide : ("keyword" : String) ≠ "vector"),
    if_pos rfl]

/-- Witness for C8: the mapping analyzes `memo_sbj` with the same
`japanese_analyzer` the keyword query uses. -/
theorem keyword_mode_query_witness :
    ("memo_sbj", "japanese_analyzer") ∈ T_MEMO_CARTE_MAPPING_text_fields :=
  (keyword_mode_query "q" 10 []).2.2.2.1 ("memo_sbj", none) (by decide)

/-! ## Result formatting (`search_memo_carte` response loop) -/

/-- A raw engine hit: document id, relevance score and returned `_source`
fields (the engine has already applied the body's `_source.excludes`). -/
structure RawHit where
  id : String
  score : ℚ
  source : List (String × String)
deriving DecidableEq

/-- A formatted result entry `{id, score, source}`. -/
structure SearchHit where
  id : String
  score : ℚ
  source : List (String × String)
deriving DecidableEq

/-- The result-formatting loop of `search_memo_carte`: each raw hit maps to
`{"id": hit["_id"], "score": hit["_score"], "source": hit["_source"]}`, in
engine order. -/
def format_results (hits : List RawHit) : List SearchHit :=
  hits.map (fun h => ⟨h.id, h.score, h.source⟩)

/-- C9: every mode's request body excludes `memo_vector` from the returned
source fields, and the formatting loop copies sources verbatim, so when the
engine honours the exclusion no returned hit contains the vector field. -/
theorem memo_vector_always_excluded (search_type q : String) (size : ℕ)
    (qv : List ℚ) :
    (search_memo_carte_body search_type q size qv).source_excludes
      = ["memo_vector"]
    ∧ ∀ hits : List RawHit,
        (∀ h ∈ hits, ∀ kv ∈ h.source,
          kv.1 ∉ (search_memo_carte_body search_type q size qv).source_excludes) →
        ∀ r ∈ format_results hits, ∀ kv ∈ r.source, kv.1 ≠ "memo_vector" := by
  have hex : (search_memo_carte_body search_type q size qv).source_excludes
      = ["memo_vector"] := by
    rw [search_memo_carte_body_eq]
    split_ifs <;> rfl
  refine ⟨hex, ?_⟩
  intro hits hh r hr kv hkv
  rw [format_results, List.mem_map] at hr
  obtain ⟨h0, hh0, hr0⟩ := hr
  subst hr0
  have h2 := hh h0 hh0 kv hkv
  rw [hex] at h2
  simpa using h2

/-- Witness for C9: a concrete hit without the vector field formats to a
result without the vector field. -/
theorem memo_vector_always_excluded_witness :
    (("memo_other", "x") : String × String).1 ≠ "memo_vector" :=
  (memo_vector_always_excluded "vector" "q" 10 []).2
    [⟨"1", 1, [("memo_other", "x")]⟩] (by decide)
    ⟨"1", 1, [("memo_other", "x")]⟩ (by decide) ("memo_other", "x") (by decide)

/-- C5 counterexample: a request with the malformed mode `"not-a-mode"` is
not rejected — `search_memo_carte` has no validation branch, so the request
falls into the default hybrid branch and awaits the embedding call, an
external call. -/
theorem malformed_mode_not_rejected :
    search_memo_carte_dispatch "not-a-mode" = SearchDispatch.callsEmbedding
    ∧ (search_memo_carte_dispatch "not-a-mode").makesExternalCall = true := by
  constructor <;> decide

/-- C5 amended: a search request whose mode is neither `vector` nor
`keyword` — including malformed modes — is not rejected; it is processed
exactly as the default hybrid mode, reaching the embedding provider and the
backing store. -/
theorem unknown_mode_treated_as_hybrid (search_type q : String) (size : ℕ)
    (qv : List ℚ) (h1 : search_type ≠ "vector") (h2 : search_type ≠ "keyword") :
    search_memo_carte_dispatch search_type = SearchDispatch.callsEmbedding
    ∧ search_memo_carte_body search_type q size qv
        = search_memo_carte_body "hybrid" q size qv := by
  constructor
  · rw [search_memo_carte_dispatch, if_neg h1, if_neg h2]
  · rw [search_memo_carte_body_eq, if_neg h1, if_neg h2,
      search_memo_carte_body_eq,
      if_neg (by decide : ("hybrid" : String) ≠ "vector"),
      if_neg (by decide : ("hybrid" : String) ≠ "keyword")]

/-- Witness for the amended C5 at a concrete malformed mode. -/
theorem unknown_mode_treated_as_hybrid_witness :
    search_memo_carte_dispatch "fuzzy" = SearchDispatch.callsEmbedding
    ∧ search_memo_carte_body "fuzzy" "q" 10 []
        = search_memo_carte_body "hybrid" "q" 10 [] :=
  unknown_mode_treated_as_hybrid "fuzzy" "q" 10 [] (by decide) (by decide)

/-! ## Batch indexer (`routers/opensearch.index_memo_carte_data`)

Per-record interaction with the two external collaborators: the reply of
`get_embedding(combined_text)` (only consulted when the stripped combined
text is non-empty) and the reply of `opensearch_client.index(...)` — either
a raised exception or the response's `result` string. -/

/-- The collaborator replies available to one record's processing. -/
structure RecordEnv where
  embed_result : Except String (List ℚ)
  index_result : Except String String

/-- Outcome of processing one record of the batch. -/
inductive RecordOutcome
  | indexed
  | errored (msg : String)
deriving DecidableEq

/-- The message of the Python `TypeError` raised by
`isinstance(doc[field], datetime)`: the router runs `import datetime`, so
the name `datetime` is bound to the module, not the class, and `isinstance`
against a module raises unconditionally. -/
def isinstance_module_error : String :=
  "isinstance() arg 2 must be a type or tuple of types"

/-- One iteration of the indexing loop, under the record's `try`/`except`:
combine the texts; if the stripped combined text is non-empty, call the
embedding provider (its failure is caught per record); then run the
timestamp-conversion loop — which raises the `isinstance` `TypeError` as
soon as one of `datetime_memo_carte`, `datetime_insert`, `datetime_update`
is set, since `datetime` objects are always truthy — and finally upsert by
`id_memo_carte`, counting the record when the store answers `created` or
`updated`. -/
def process_memo (memo : MemoCarteModel) (env : RecordEnv) : RecordOutcome :=
  let combined_text := combine_memo_texts memo
  let embed_step : Except String (Option (List ℚ)) :=
    if (pyStrip combined_text).isEmpty then .ok none
    else env.embed_result.map some
  match embed_step with
  | .error e =>
    .errored ("Error processing memo " ++ toString memo.id_memo_carte ++ ": " ++ e)
  | .ok _ =>
    if memo.datetime_memo_carte.isSome || memo.datetime_insert.isSome
        || memo.datetime_update.isSome then
      .errored ("Error processing memo " ++ toString memo.id_memo_carte ++ ": "
        ++ isinstance_module_error)
    else
      match env.index_result with
      | .error e =>
        .errored ("Error processing memo " ++ toString memo.id_memo_carte ++ ": " ++ e)
      | .ok r =>
        if r = "created" || r = "updated" then .indexed
        else .errored ("Failed to index memo " ++ toString memo.id_memo_carte ++ ": " ++ r)

/-- Accumulation of `indexed_count` and `errors` over the batch loop. -/
def index_step (acc : ℕ × List String) (p : MemoCarteModel × RecordEnv) :
    ℕ × List String :=
  match process_memo p.1 p.2 with
  | .indexed => (acc.1 + 1, acc.2)
  | .errored msg => (acc.1, acc.2 ++ [msg])

/-- The response of `index_memo_carte_data` (the fields the claims are
about): `indexed_count`, `total_requested` and `errors[:10]`. -/
structure IndexSummary where
  indexed_count : ℕ
  total_requested : ℕ
  errors : List String
deriving DecidableEq

/-- Embedding of `index_memo_carte_data`: fold the per-record step over the
batch — each record is isolated by its own `try`/`except`, so no record's
failure aborts the loop and the function is total (partial failure never
raises to the caller) — then report the count, the total and the error list
capped at 10 entries. -/
def index_memo_carte_data (batch : List (MemoCarteModel × RecordEnv)) :
    IndexSummary :=
  let r := batch.foldl index_step (0, [])
  ⟨r.1, batch.length, r.2.take 10⟩

theorem foldl_index_step_indexed (l : List (MemoCarteModel × RecordEnv))
    (h : ∀ p ∈ l, process_memo p.1 p.2 = .indexed) (c : ℕ) (errs : List String) :
    l.foldl index_step (c, errs) = (c + l.length, errs) := by
  induction l generalizing c with
  | nil => simp
  | cons a t ih =>
    have ha := h a (List.mem_cons_self a t)
    rw [List.foldl_cons, show index_step (c, errs) a = (c + 1, errs) by
        rw [index_step, ha],
      ih (fun p hp => h p (List.mem_cons_of_mem a hp)) (c + 1)]
    simp
    omega

/-- C3: a batch in which exactly one record's embedding call fails (and all
other records index successfully) is not aborted: the result reports exactly
one error entry — the failed record's message — and
`indexed_count = N - 1`; moreover for every batch the returned error list is
capped at 10 entries, and `index_memo_carte_data` is a total function, so
partial failure never raises to the caller. -/
theorem index_batch_one_embed_failure (pre post : List (MemoCarteModel × RecordEnv))
    (bad : MemoCarteModel × RecordEnv) (e : String)
    (hpre : ∀ p ∈ pre, process_memo p.1 p.2 = .indexed)
    (hpost : ∀ p ∈ post, process_memo p.1 p.2 = .indexed)
    (htext : (pyStrip (combine_memo_texts bad.1)).isEmpty = false)
    (hembed : bad.2.embed_result = .error e) :
    (index_memo_carte_data (pre ++ bad :: post)).indexed_count
        = pre.length + post.length
    ∧ (index_memo_carte_data (pre ++ bad :: post)).indexed_count
        = (pre ++ bad :: post).length - 1
    ∧ (index_memo_carte_data (pre ++ bad :: post)).errors
        = ["Error processing memo " ++ toString bad.1.id_memo_carte ++ ": " ++ e]
    ∧ (index_memo_carte_data (pre ++ bad :: post)).total_requested
        = pre.length + post.length + 1
    ∧ (∀ batch : List (MemoCarteModel × RecordEnv),
        (index_memo_carte_data batch).errors.length ≤ 10) := by
  have hbad : process_memo bad.1 bad.2
      = .errored ("Error processing memo " ++ toString bad.1.id_memo_carte
          ++ ": " ++ e) := by
    rw [process_memo]
    rw [show (if (pyStrip (combine_memo_texts bad.1)).isEmpty then
          (.ok none : Except String (Option (List ℚ)))
        else bad.2.embed_result.map some) = .error e by
      rw [htext]
      simp [hembed, Except.map]]
  have hfold : (pre ++ bad :: post).foldl index_step (0, [])
      = (pre.length + post.length,
         ["Error processing memo " ++ toString bad.1.id_memo_carte ++ ": " ++ e]) := by
    rw [List.foldl_append, foldl_index_step_indexed pre hpre 0 [],
      List.foldl_cons,
      show index_step (0 + pre.length, []) bad
          = (pre.length,
             ["Error processing memo " ++ toString bad.1.id_memo_carte ++ ": " ++ e]) by
        rw [index_step, hbad]
        simp,
      foldl_index_step_indexed post hpost]
  refine ⟨?_, ?_, ?_, ?_, ?_⟩
  · rw [index_memo_carte_data, hfold]
  · rw [index_memo_carte_data, hfold]
    simp only [List.length_append, List.length_cons]
    omega
  · rw [index_memo_carte_data, hfold]
    rfl
  · rw [index_memo_carte_data]
    simp only [List.length_append, List.length_cons]
    omega
  · intro batch
    rw [index_memo_carte_data]
    exact List.length_take_le 10 (batch.foldl index_step (0, [])).2

/-- Records and replies for the batch-failure witness. -/
def okMemo : MemoCarteModel :=
  { id_memo_carte := 1, memo_other := some "hello" }

/-- A successful record environment: embedding and upsert both succeed. -/
def okEnv : RecordEnv :=
  { embed_result := .ok [1], index_result := .ok "created" }

/-- The record whose embedding call fails. -/
def badMemo : MemoCarteModel :=
  { id_memo_carte := 2, memo_other := some "world" }

/-- A record environment whose embedding call raises a provider error. -/
def badEnv : RecordEnv :=
  { embed_result := .error "quota", index_result := .ok "created" }

/-- Witness for C3: a two-record batch whose second record's embedding call
fails reports one indexed record and exactly that record's error. -/
theorem index_batch_one_embed_failure_witness :
    (index_memo_carte_data [(okMemo, okEnv), (badMemo, badEnv)]).indexed_count
        = [(okMemo, okEnv)].length + ([] : List (MemoCarteModel × RecordEnv)).length
    ∧ (index_memo_carte_data [(okMemo, okEnv), (badMemo, badEnv)]).errors
        = ["Error processing memo " ++ toString badMemo.id_memo_carte ++ ": " ++ "quota"] :=
  have h := index_batch_one_embed_failure [(okMemo, okEnv)] [] (badMemo, badEnv)
    "quota" (by decide) (by decide) (by decide) rfl
  ⟨h.1, h.2.2.1⟩

/-- C2 failing record: a memo whose `datetime_insert` timestamp is set (all
text fields empty, so no embedding call is even attempted) and whose store
reply would be `created`. -/
def timestampedMemo : MemoCarteModel :=
  { id_memo_carte := 3, datetime_insert := some ⟨"2024-01-01T00:00:00"⟩ }

/-- C2 (code bug): a record with a timestamp field set is never indexed —
the timestamp-conversion loop evaluates `isinstance(doc[field], datetime)`
where `datetime` is the imported module, raising a `TypeError` that the
per-record handler converts into an error entry, so `indexed_count` stays
`0` and an error is reported, contradicting the claim that such records are
serialized and upserted. -/
theorem timestamped_record_never_indexed :
    process_memo timestampedMemo { embed_result := .ok [1], index_result := .ok "created" }
      = .errored ("Error processing memo 3: " ++ isinstance_module_error)
    ∧ index_memo_carte_data
        [(timestampedMemo, { embed_result := .ok [1], index_result := .ok "created" })]
      = ⟨0, 1, ["Error processing memo 3: " ++ isinstance_module_error]⟩ := by
  constructor <;> decide

/-! ## Startup schema provisioning (`opensearch_utils.create_index`,
`create_all_indexes`, `main.startup_event`) -/

/-- Reply of the backing store to one call: a value or a raised error. -/
inductive StoreResp (α : Type)
  | ok (a : α)
  | raise (e : String)

/-- The store's replies to the two calls `create_index` makes:
`indices.exists` and `indices.create` (the latter abstracts the store's
reaction to the declared mapping). -/
structure StoreEnv where
  exists_resp : StoreResp Bool
  create_resp : StoreResp Unit

/-- Embedding of `opensearch_utils.create_index`: the whole body sits in a
`try`/`except` that catches any store error, prints it, and returns
`False` — it never re-raises. -/
def create_index (env : StoreEnv) (index_name : String) : Bool :=
  match env.exists_resp with
  | .raise _ => false
  | .ok true => true
  | .ok false =>
    match env.create_resp with
    | .raise _ => false
    | .ok _ => true

/-- Index names from `opensearch_utils`. -/
def T_MEMO_CARTE_INDEX : String := "t_memo_carte"

/-- Second index name from `opensearch_utils`. -/
def JAPANESE_MEDICAL_DOCUMENTS_INDEX : String := "japanese_medical_documents"

/-- Embedding of `create_all_indexes`: collect the names whose
`create_index` returned `True`; never raises, because `create_index` never
does. -/
def create_all_indexes (memo_env docs_env : StoreEnv) : List String :=
  (if create_index memo_env T_MEMO_CARTE_INDEX then [T_MEMO_CARTE_INDEX] else [])
    ++ (if create_index docs_env JAPANESE_MEDICAL_DOCUMENTS_INDEX then
          [JAPANESE_MEDICAL_DOCUMENTS_INDEX] else [])

/-- Result of `main.startup_event`: either the service proceeds to accept
traffic (with the list of indexes reported created/verified) or startup
raised and the service does not come up. -/
inductive StartupResult
  | serving (created_indexes : List String)
  | fatal (err : String)
deriving DecidableEq

/-- Embedding of `main.startup_event`: database table creation and the
OpenAI probe re-raise on failure; the index-provisioning step is wrapped in
`try`/`except raise RuntimeError`, but `create_all_indexes` cannot raise,
so that handler is dead code and startup always proceeds to serve. -/
def startup_event (db_ok openai_ok : Bool) (memo_env docs_env : StoreEnv) :
    StartupResult :=
  if !db_ok then .fatal "Failed to initialize database"
  else if !openai_ok then .fatal "Failed to connect to OpenAI API"
  else .serving (create_all_indexes memo_env docs_env)

/-- A store that is unreachable: both calls raise a connection error. -/
def unreachableStore : StoreEnv :=
  { exists_resp := .raise "ConnectionError: connection refused"
    create_resp := .raise "ConnectionError: connection refused" }

/-- A store that rejects the declared mapping at index creation. -/
def mappingRejectedStore : StoreEnv :=
  { exists_resp := .ok false
    create_resp := .raise "mapper_parsing_exception" }

/-- C4 (code bug): with the backing store unreachable — or rejecting the
mapping — `create_index` swallows the error and returns `False`,
`create_all_indexes` returns an empty list, and `startup_event` completes
as `serving []`: the service begins accepting traffic without its expected
schema, contradicting the claim that provisioning failure is fatal at
startup. -/
theorem startup_serves_without_schema :
    create_index unreachableStore T_MEMO_CARTE_INDEX = false
    ∧ create_index mappingRejectedStore T_MEMO_CARTE_INDEX = false
    ∧ create_all_indexes unreachableStore unreachableStore = []
    ∧ startup_event true true unreachableStore unreachableStore = .serving []
    ∧ startup_event true true mappingRejectedStore mappingRejectedStore
        = .serving [] :=
  ⟨rfl, rfl, rfl, rfl, rfl⟩

end Vetty
